import Mathlib

/-!
Shallow embedding of the `pipproto` wire-format codec (`src/main.rs`).
Bytes are modelled as `Nat` (with explicit `/` and `% 256` where the Rust
code performs `u64::to_be_bytes` / `u64::from_be_bytes`), byte sequences
as `List Nat`, and fallible Rust functions returning
`Result<T, DecodeError>` as `Except DecodeError T`.
-/

namespace Pipproto

/-- Rust `const MAGIC: [u8; 2] = *b"PP";` (the bytes `0x50 0x50`). -/
def MAGIC : List Nat := [0x50, 0x50]

/-- Rust `const VERSION_V1: u8 = 0x01;` -/
def VERSION_V1 : Nat := 0x01

/-- Rust `const HEADER_LEN_V1: usize = 21;` -/
def HEADER_LEN_V1 : Nat := 21

/-- Rust `enum MsgType { Event = 0x01, Command = 0x02, Ack = 0x03, Error = 0x04 }` -/
inductive MsgType where
  | Event
  | Command
  | Ack
  | Error
deriving DecidableEq, Repr

/-- The `#[repr(u8)]` discriminant of each `MsgType` variant, as used by
the Rust cast `self.msg_type as u8`. -/
def MsgType.toU8 : MsgType → Nat
  | .Event => 0x01
  | .Command => 0x02
  | .Ack => 0x03
  | .Error => 0x04

/-- Rust `MsgType::from_u8`. -/
def MsgType.fromU8 (v : Nat) : Option MsgType :=
  if v = 0x01 then some .Event
  else if v = 0x02 then some .Command
  else if v = 0x03 then some .Ack
  else if v = 0x04 then some .Error
  else none

/-- Rust `enum DecodeError { ... }` -/
inductive DecodeError where
  | TooShort
  | BadMagic
  | BadVersion (v : Nat)
  | UnknownMsgType (v : Nat)
  | ReservedFlags (b : Nat)
  | BadDeviceIdBytes
  | BadCounterBytes
deriving DecidableEq, Repr

/-- Rust `struct Flags(u8);` -/
structure Flags where
  bits : Nat
deriving DecidableEq, Repr

/-- Rust `Flags::ACK_REQUIRED = 0b0000_0001`. -/
def Flags.ACK_REQUIRED : Nat := 0b00000001

/-- Rust `Flags::new`: reserved bits 1..7 must be zero. -/
def Flags.new (bits : Nat) : Except DecodeError Flags :=
  if bits &&& 0b11111110 ≠ 0 then
    .error (.ReservedFlags bits)
  else
    .ok ⟨bits⟩

/-- Rust `Flags::ack_required`. -/
def Flags.ack_required (f : Flags) : Bool :=
  f.bits &&& Flags.ACK_REQUIRED ≠ 0

/-- Rust `struct FrameHeaderV1 { version, msg_type, flags, device_id, counter }`.
The `[u8; 8]` device id is a `List Nat` (length 8 in every value the Rust
type can hold), the `u64` counter a `Nat` below `2 ^ 64`. -/
structure FrameHeaderV1 where
  version : Nat
  msg_type : MsgType
  flags : Flags
  device_id : List Nat
  counter : Nat
deriving DecidableEq, Repr

/-- Rust `struct FrameV1 { header, body }`. -/
structure FrameV1 where
  header : FrameHeaderV1
  body : List Nat
deriving DecidableEq, Repr

/-- Rust `u64::to_be_bytes`: the eight big-endian bytes of a 64-bit value. -/
def u64ToBeBytes (n : Nat) : List Nat :=
  [n / 2 ^ 56 % 256, n / 2 ^ 48 % 256, n / 2 ^ 40 % 256, n / 2 ^ 32 % 256,
   n / 2 ^ 24 % 256, n / 2 ^ 16 % 256, n / 2 ^ 8 % 256, n % 256]

/-- Rust `u64::from_be_bytes`: big-endian bytes back to the integer value. -/
def u64FromBeBytes (bs : List Nat) : Nat :=
  bs.foldl (fun acc b => acc * 256 + b) 0

/-- Rust `FrameHeaderV1::encode`: magic, version, type tag, flags byte,
device id, big-endian counter, in order. -/
def FrameHeaderV1.encode (h : FrameHeaderV1) : List Nat :=
  MAGIC ++ [h.version, h.msg_type.toU8, h.flags.bits] ++ h.device_id
    ++ u64ToBeBytes h.counter

/-- Rust `FrameHeaderV1::toggle`: plain constructor wrapper used by `decode`. -/
def FrameHeaderV1.toggle (version : Nat) (msg_type : MsgType) (flags : Flags)
    (device_id : List Nat) (counter : Nat) : FrameHeaderV1 :=
  { version := version, msg_type := msg_type, flags := flags,
    device_id := device_id, counter := counter }

/-- Rust `FrameHeaderV1::decode`: ordered validation of a 21-byte header.
The two `try_into` slice-to-array conversions of the Rust code (fallible
exactly when the slice length is not 8) are modelled as length tests on
the extracted slices `input[5..13]` and `input[13..21]`. -/
def FrameHeaderV1.decode (input : List Nat) : Except DecodeError FrameHeaderV1 :=
  if input.length < HEADER_LEN_V1 then
    .error .TooShort
  else if input.take 2 ≠ MAGIC then
    .error .BadMagic
  else
    let version := input.getD 2 0
    if version ≠ VERSION_V1 then
      .error (.BadVersion version)
    else
      let msg_raw := input.getD 3 0
      match MsgType.fromU8 msg_raw with
      | none => .error (.UnknownMsgType msg_raw)
      | some msg_type =>
        let flags_raw := input.getD 4 0
        match Flags.new flags_raw with
        | .error e => .error e
        | .ok flags =>
          let device_id := (input.drop 5).take 8
          if device_id.length ≠ 8 then
            .error .BadDeviceIdBytes
          else
            let counter_bytes := (input.drop 13).take 8
            if counter_bytes.length ≠ 8 then
              .error .BadCounterBytes
            else
              .ok (FrameHeaderV1.toggle version msg_type flags device_id
                    (u64FromBeBytes counter_bytes))

/-- Rust `FrameV1::encode`: encoded header followed by the body bytes. -/
def FrameV1.encode (f : FrameV1) : List Nat :=
  f.header.encode ++ f.body

/-- Rust `FrameV1::decode`: delegate the header, take the rest as body. -/
def FrameV1.decode (input : List Nat) : Except DecodeError FrameV1 :=
  match FrameHeaderV1.decode input with
  | .error e => .error e
  | .ok header => .ok { header := header, body := input.drop HEADER_LEN_V1 }

/-- Recovering a `u64` from its big-endian bytes is the identity below `2 ^ 64`. -/
lemma u64_roundtrip (n : Nat) (h : n < 2 ^ 64) :
    u64FromBeBytes (u64ToBeBytes n) = n := by
  simp only [u64ToBeBytes, u64FromBeBytes, List.foldl]
  omega

/-- A list of length 8 is a literal eight-element list. -/
lemma exists_list8 {l : List Nat} (h : l.length = 8) :
    ∃ a b c d e f g i, l = [a, b, c, d, e, f, g, i] := by
  rcases l with _ | ⟨a, _ | ⟨b, _ | ⟨c, _ | ⟨d, _ | ⟨e, _ | ⟨f, _ | ⟨g, _ | ⟨i, t⟩⟩⟩⟩⟩⟩⟩⟩ <;>
    simp_all

/-- Decoding the tag emitted for a variant gives back that variant. -/
lemma fromU8_toU8 (t : MsgType) : MsgType.fromU8 t.toU8 = some t := by
  cases t <;> rfl

/-- Header round trip, with arbitrary trailing bytes after the header. -/
lemma header_decode_encode_append (h : FrameHeaderV1) (rest : List Nat)
    (hv : h.version = VERSION_V1)
    (hf : h.flags.bits &&& 0b11111110 = 0)
    (hd : h.device_id.length = 8)
    (hc : h.counter < 2 ^ 64) :
    FrameHeaderV1.decode (h.encode ++ rest) = .ok h := by
  obtain ⟨d0, d1, d2, d3, d4, d5, d6, d7, hde⟩ := exists_list8 hd
  obtain ⟨version, msg_type, flags, device_id, counter⟩ := h
  obtain ⟨bits⟩ := flags
  simp only [VERSION_V1] at hv
  simp only at hde hf hc hv
  subst hde hv
  simp only [FrameHeaderV1.encode, MAGIC, u64ToBeBytes, FrameHeaderV1.decode,
    HEADER_LEN_V1, List.cons_append, List.nil_append, List.length_cons,
    List.length_append, List.take, List.drop, List.getD, List.getElem?_cons_zero,
    Option.getD_some, fromU8_toU8, Flags.new, hf, FrameHeaderV1.toggle]
  rw [if_neg (by omega)]
  simp [fromU8_toU8, hf, u64FromBeBytes, VERSION_V1]
  omega

/-- A header with an 8-byte device id encodes to exactly 21 bytes. -/
lemma header_encode_length (h : FrameHeaderV1) (hd : h.device_id.length = 8) :
    h.encode.length = 21 := by
  simp [FrameHeaderV1.encode, MAGIC, u64ToBeBytes, hd]

/-- Frame round trip: header round trip plus the body passed through. -/
lemma frame_decode_encode (f : FrameV1)
    (hv : f.header.version = VERSION_V1)
    (hf : f.header.flags.bits &&& 0b11111110 = 0)
    (hd : f.header.device_id.length = 8)
    (hc : f.header.counter < 2 ^ 64) :
    FrameV1.decode f.encode = .ok f := by
  have hlen := header_encode_length f.header hd
  simp only [FrameV1.decode, FrameV1.encode, HEADER_LEN_V1,
    header_decode_encode_append f.header f.body hv hf hd hc]
  rw [← hlen, List.drop_left]

/-- Header decode reads nothing beyond the first 21 bytes. -/
lemma decode_prefix_21 (input : List Nat) (h : 21 ≤ input.length) :
    FrameHeaderV1.decode input = FrameHeaderV1.decode (input.take 21) := by
  have h1 : (input.take 21).length = 21 := by simp [List.length_take]; omega
  have h2 : (input.take 21).take 2 = input.take 2 := by rw [List.take_take]; norm_num
  have h3 : ∀ i, i < 21 → (input.take 21).getD i 0 = input.getD i 0 := by
    intro i hi; simp [List.getD_eq_getElem?_getD, List.getElem?_take, hi]
  have h5 : ((input.take 21).drop 5).take 8 = (input.drop 5).take 8 := by
    rw [List.drop_take, List.take_take]; norm_num
  have h13 : ((input.take 21).drop 13).take 8 = (input.drop 13).take 8 := by
    rw [List.drop_take, List.take_take]; norm_num
  simp only [FrameHeaderV1.decode, HEADER_LEN_V1, h1, h2, h5, h13,
    h3 2 (by norm_num), h3 3 (by norm_num), h3 4 (by norm_num)]
  rw [if_neg (show ¬(input.length < 21) by omega),
    if_neg (show ¬(21 < 21) by omega)]

/-- The only error `Flags::new` can return is `ReservedFlags` of its input. -/
lemma Flags.new_error {bits : Nat} {e : DecodeError}
    (h : Flags.new bits = .error e) : e = .ReservedFlags bits := by
  unfold Flags.new at h
  split at h <;> simp_all

/-- The two slice-conversion error branches of header decode are unreachable. -/
lemma decode_never_bad_slices (input : List Nat) :
    FrameHeaderV1.decode input ≠ .error .BadDeviceIdBytes ∧
    FrameHeaderV1.decode input ≠ .error .BadCounterBytes := by
  constructor <;>
  · simp only [FrameHeaderV1.decode, HEADER_LEN_V1]
    split
    · simp
    split
    · simp
    split
    · simp
    split
    · simp
    split
    · next e hE => simp [Flags.new_error hE]
    split
    · next hx => simp [List.length_take, List.length_drop] at hx; omega
    split
    · next hx => simp [List.length_take, List.length_drop] at hx; omega
    simp

/-- Check 1: short input is rejected as `TooShort`. -/
lemma decode_too_short (input : List Nat) (h : input.length < 21) :
    FrameHeaderV1.decode input = .error .TooShort := by
  simp [FrameHeaderV1.decode, HEADER_LEN_V1, h]

/-- Check 2: once the length check passed, a wrong magic is `BadMagic`. -/
lemma decode_bad_magic (input : List Nat) (hlen : 21 ≤ input.length)
    (hm : input.take 2 ≠ MAGIC) :
    FrameHeaderV1.decode input = .error .BadMagic := by
  simp only [FrameHeaderV1.decode, HEADER_LEN_V1]
  rw [if_neg (show ¬(input.length < 21) by omega), if_pos hm]

/-- Check 3: after length and magic, a wrong version byte is `BadVersion`. -/
lemma decode_bad_version (input : List Nat) (hlen : 21 ≤ input.length)
    (hm : input.take 2 = MAGIC) (hv : input.getD 2 0 ≠ VERSION_V1) :
    FrameHeaderV1.decode input = .error (.BadVersion (input.getD 2 0)) := by
  simp only [FrameHeaderV1.decode, HEADER_LEN_V1]
  rw [if_neg (show ¬(input.length < 21) by omega), if_neg (not_ne_iff.mpr hm),
    if_pos hv]

/-- Check 4: after length, magic and version, an unknown tag byte is
`UnknownMsgType`. -/
lemma decode_unknown_msg_type (input : List Nat) (hlen : 21 ≤ input.length)
    (hm : input.take 2 = MAGIC) (hv : input.getD 2 0 = VERSION_V1)
    (hM : MsgType.fromU8 (input.getD 3 0) = none) :
    FrameHeaderV1.decode input = .error (.UnknownMsgType (input.getD 3 0)) := by
  simp only [FrameHeaderV1.decode, HEADER_LEN_V1]
  rw [if_neg (show ¬(input.length < 21) by omega), if_neg (not_ne_iff.mpr hm),
    if_neg (not_ne_iff.mpr hv)]
  simp only [hM]

/-- Check 5: after length, magic, version and tag, set reserved flag bits
are `ReservedFlags`. -/
lemma decode_reserved_flags (input : List Nat) (hlen : 21 ≤ input.length)
    (hm : input.take 2 = MAGIC) (hv : input.getD 2 0 = VERSION_V1)
    (t : MsgType) (hM : MsgType.fromU8 (input.getD 3 0) = some t)
    (hF : input.getD 4 0 &&& 0b11111110 ≠ 0) :
    FrameHeaderV1.decode input = .error (.ReservedFlags (input.getD 4 0)) := by
  simp only [FrameHeaderV1.decode, HEADER_LEN_V1]
  rw [if_neg (show ¬(input.length < 21) by omega), if_neg (not_ne_iff.mpr hm),
    if_neg (not_ne_iff.mpr hv)]
  simp only [hM, Flags.new, if_pos hF]


/-- Claim C1: for every valid header (version equal to the supported
constant, any of the four message types, flags with reserved bits 1-7
zero, 8-byte device id, 64-bit counter), decode of encode returns `Ok`
of the original header. -/
theorem header_roundtrip_law (h : FrameHeaderV1)
    (hv : h.version = VERSION_V1)
    (hf : h.flags.bits &&& 0b11111110 = 0)
    (hd : h.device_id.length = 8)
    (hc : h.counter < 2 ^ 64) :
    FrameHeaderV1.decode h.encode = .ok h := by
  have := header_decode_encode_append h [] hv hf hd hc
  simpa using this

/-- Witness for C1 at a concrete valid header. -/
theorem header_roundtrip_law_witness :
    FrameHeaderV1.decode
        (FrameHeaderV1.mk 1 .Ack ⟨0⟩ [1, 2, 3, 4, 5, 6, 7, 8] 42).encode =
      .ok (FrameHeaderV1.mk 1 .Ack ⟨0⟩ [1, 2, 3, 4, 5, 6, 7, 8] 42) :=
  header_roundtrip_law _ rfl (by decide) (by decide) (by decide)

/-- Claim C2: for every valid frame (valid header, arbitrary body, empty
included), decode of encode returns `Ok` of the original frame, and the
decoded body is every byte of the encoding from offset 21 on. -/
theorem frame_roundtrip_law (f : FrameV1)
    (hv : f.header.version = VERSION_V1)
    (hf : f.header.flags.bits &&& 0b11111110 = 0)
    (hd : f.header.device_id.length = 8)
    (hc : f.header.counter < 2 ^ 64) :
    FrameV1.decode f.encode = .ok f ∧ f.encode.drop 21 = f.body := by
  refine ⟨frame_decode_encode f hv hf hd hc, ?_⟩
  rw [FrameV1.encode, ← header_encode_length f.header hd, List.drop_left]

/-- Witness for C2 at a concrete frame with a three-byte body. -/
theorem frame_roundtrip_law_witness :
    FrameV1.decode
        (FrameV1.mk (FrameHeaderV1.mk 1 .Event ⟨1⟩ [65, 66, 67, 68, 69, 70, 71, 72] 999)
          [10, 20, 30]).encode =
      .ok (FrameV1.mk (FrameHeaderV1.mk 1 .Event ⟨1⟩ [65, 66, 67, 68, 69, 70, 71, 72] 999)
          [10, 20, 30]) ∧
    (FrameV1.mk (FrameHeaderV1.mk 1 .Event ⟨1⟩ [65, 66, 67, 68, 69, 70, 71, 72] 999)
        [10, 20, 30]).encode.drop 21 = [10, 20, 30] :=
  frame_roundtrip_law _ rfl (by decide) (by decide) (by decide)

/-- Claim C3: header encode always yields exactly 21 bytes, and frame
encode always yields 21 plus the body length. -/
theorem encode_length_invariant :
    (∀ h : FrameHeaderV1, h.device_id.length = 8 → h.encode.length = 21) ∧
    (∀ f : FrameV1, f.header.device_id.length = 8 →
      f.encode.length = 21 + f.body.length) := by
  refine ⟨header_encode_length, ?_⟩
  intro f hd
  simp [FrameV1.encode, header_encode_length f.header hd]

/-- Witness for C3 at a concrete header and a concrete two-byte-body frame. -/
theorem encode_length_invariant_witness :
    (FrameHeaderV1.mk 1 .Event ⟨0⟩ [0, 0, 0, 0, 0, 0, 0, 0] 0).encode.length = 21 ∧
    (FrameV1.mk (FrameHeaderV1.mk 1 .Event ⟨0⟩ [0, 0, 0, 0, 0, 0, 0, 0] 0)
        [9, 9]).encode.length =
      21 + (FrameV1.mk (FrameHeaderV1.mk 1 .Event ⟨0⟩ [0, 0, 0, 0, 0, 0, 0, 0] 0)
        [9, 9]).body.length :=
  ⟨encode_length_invariant.1 _ (by decide), encode_length_invariant.2 _ (by decide)⟩

/-- Claim C4: decode reports the first violated check in the fixed order
length, magic, version, message type, reserved flags; later checks never
change the result once an earlier one fails. -/
theorem decode_ordered_validation :
    (∀ input : List Nat, input.length < 21 →
      FrameHeaderV1.decode input = .error .TooShort) ∧
    (∀ input : List Nat, 21 ≤ input.length → input.take 2 ≠ MAGIC →
      FrameHeaderV1.decode input = .error .BadMagic) ∧
    (∀ input : List Nat, 21 ≤ input.length → input.take 2 = MAGIC →
      input.getD 2 0 ≠ VERSION_V1 →
      FrameHeaderV1.decode input = .error (.BadVersion (input.getD 2 0))) ∧
    (∀ input : List Nat, 21 ≤ input.length → input.take 2 = MAGIC →
      input.getD 2 0 = VERSION_V1 → MsgType.fromU8 (input.getD 3 0) = none →
      FrameHeaderV1.decode input = .error (.UnknownMsgType (input.getD 3 0))) ∧
    (∀ input : List Nat, ∀ t : MsgType, 21 ≤ input.length →
      input.take 2 = MAGIC → input.getD 2 0 = VERSION_V1 →
      MsgType.fromU8 (input.getD 3 0) = some t →
      input.getD 4 0 &&& 0b11111110 ≠ 0 →
      FrameHeaderV1.decode input = .error (.ReservedFlags (input.getD 4 0))) :=
  ⟨decode_too_short, decode_bad_magic, decode_bad_version, decode_unknown_msg_type,
    fun input t hlen hm hv hM hF => decode_reserved_flags input hlen hm hv t hM hF⟩

/-- Witness for C4: a 20-byte input violating length and magic at once is
`TooShort`; a 21-byte input violating magic, version, type and flags at
once is `BadMagic`. -/
theorem decode_ordered_validation_witness :
    FrameHeaderV1.decode (List.replicate 20 0xFF) = .error .TooShort ∧
    FrameHeaderV1.decode (List.replicate 21 0xFF) = .error .BadMagic :=
  ⟨decode_ordered_validation.1 _ (by decide),
   decode_ordered_validation.2.1 _ (by decide) (by decide)⟩

/-- Claim C5: the concrete scenario header (version 1, Command, flags 0,
device id "ABCDEFGH", counter 123456) encodes to the expected 21 bytes,
and those bytes decode back to exactly that header. -/
theorem scenario_command_123456 :
    FrameHeaderV1.encode
        (FrameHeaderV1.mk 0x01 .Command ⟨0⟩
          [0x41, 0x42, 0x43, 0x44, 0x45, 0x46, 0x47, 0x48] 123456) =
      [0x50, 0x50, 0x01, 0x02, 0x00, 0x41, 0x42, 0x43, 0x44, 0x45, 0x46, 0x47,
       0x48, 0x00, 0x00, 0x00, 0x00, 0x00, 0x01, 0xE2, 0x40] ∧
    FrameHeaderV1.decode
        [0x50, 0x50, 0x01, 0x02, 0x00, 0x41, 0x42, 0x43, 0x44, 0x45, 0x46, 0x47,
         0x48, 0x00, 0x00, 0x00, 0x00, 0x00, 0x01, 0xE2, 0x40] =
      .ok (FrameHeaderV1.mk 0x01 .Command ⟨0⟩
          [0x41, 0x42, 0x43, 0x44, 0x45, 0x46, 0x47, 0x48] 123456) :=
  ⟨rfl, rfl⟩

/-- Claim C6: the tag mapping is bijective: 1, 2, 3, 4 map to the four
variants, every other byte maps to none, each variant's emitted tag maps
back to it, and tag 0x99 on an otherwise well-formed header decodes to
`UnknownMsgType 0x99`. -/
theorem msg_type_tag_bijective :
    MsgType.fromU8 0x01 = some .Event ∧
    MsgType.fromU8 0x02 = some .Command ∧
    MsgType.fromU8 0x03 = some .Ack ∧
    MsgType.fromU8 0x04 = some .Error ∧
    (∀ v : Nat, v ≠ 0x01 → v ≠ 0x02 → v ≠ 0x03 → v ≠ 0x04 →
      MsgType.fromU8 v = none) ∧
    (∀ t : MsgType, MsgType.fromU8 t.toU8 = some t) ∧
    FrameHeaderV1.decode
        [0x50, 0x50, 0x01, 0x99, 0x00, 0, 0, 0, 0, 0, 0, 0, 0,
         0, 0, 0, 0, 0, 0, 0, 0] =
      .error (.UnknownMsgType 0x99) := by
  refine ⟨rfl, rfl, rfl, rfl, ?_, fromU8_toU8, rfl⟩
  intro v h1 h2 h3 h4
  simp [MsgType.fromU8, h1, h2, h3, h4]

/-- Witness for C6 at the reserved tag byte 0x99. -/
theorem msg_type_tag_bijective_witness :
    MsgType.fromU8 0x99 = none :=
  msg_type_tag_bijective.2.2.2.2.1 0x99 (by decide) (by decide) (by decide) (by decide)

/-- Claim C7: `Flags::new` fails with `ReservedFlags` exactly when a
reserved bit 1-7 is set and otherwise wraps the bits unchanged; a header
with flags byte 2 is rejected as `ReservedFlags 2`, while flags byte 1
decodes with `ack_required` true. -/
theorem flags_reserved_invariant :
    (∀ bits : Nat, Flags.new bits = .error (.ReservedFlags bits) ↔
      bits &&& 0b11111110 ≠ 0) ∧
    (∀ bits : Nat, bits &&& 0b11111110 = 0 → Flags.new bits = .ok ⟨bits⟩) ∧
    FrameHeaderV1.decode
        [0x50, 0x50, 0x01, 0x01, 0b00000010, 0, 0, 0, 0, 0, 0, 0, 0,
         0, 0, 0, 0, 0, 0, 0, 0] =
      .error (.ReservedFlags 0b00000010) ∧
    FrameHeaderV1.decode
        [0x50, 0x50, 0x01, 0x01, 0b00000001, 0, 0, 0, 0, 0, 0, 0, 0,
         0, 0, 0, 0, 0, 0, 0, 0] =
      .ok (FrameHeaderV1.toggle 0x01 .Event ⟨0b00000001⟩ [0, 0, 0, 0, 0, 0, 0, 0] 0) ∧
    Flags.ack_required ⟨0b00000001⟩ = true := by
  refine ⟨?_, ?_, rfl, rfl, rfl⟩
  · intro bits
    by_cases hb : bits &&& 0b11111110 ≠ 0 <;> simp [Flags.new, hb]
  · intro bits hb
    simp [Flags.new, hb]

/-- Witness for C7 at the concrete flag bytes 2 and 1. -/
theorem flags_reserved_invariant_witness :
    Flags.new 2 = .error (.ReservedFlags 2) ∧ Flags.new 1 = .ok ⟨1⟩ :=
  ⟨(flags_reserved_invariant.1 2).mpr (by decide),
   flags_reserved_invariant.2.1 1 (by decide)⟩

/-- Claim C8: decode accepts only version byte 1 (any other version byte
on a long-enough, correct-magic input is `BadVersion` of that byte),
while encode emits whatever version the header carries, unchanged, at
offset 2. -/
theorem version_gate_decode_only :
    (∀ input : List Nat, 21 ≤ input.length → input.take 2 = MAGIC →
      input.getD 2 0 ≠ VERSION_V1 →
      FrameHeaderV1.decode input = .error (.BadVersion (input.getD 2 0))) ∧
    (∀ h : FrameHeaderV1, h.encode.getD 2 0 = h.version) := by
  refine ⟨decode_bad_version, ?_⟩
  intro h
  rfl

/-- Witness for C8 at version byte 7. -/
theorem version_gate_decode_only_witness :
    FrameHeaderV1.decode
        [0x50, 0x50, 0x07, 0x01, 0x00, 0, 0, 0, 0, 0, 0, 0, 0,
         0, 0, 0, 0, 0, 0, 0, 0] =
      .error (.BadVersion 0x07) ∧
    (FrameHeaderV1.mk 0x07 .Event ⟨0⟩ [0, 0, 0, 0, 0, 0, 0, 0] 0).encode.getD 2 0 =
      0x07 := by
  constructor
  · have := version_gate_decode_only.1
      [0x50, 0x50, 0x07, 0x01, 0x00, 0, 0, 0, 0, 0, 0, 0, 0,
       0, 0, 0, 0, 0, 0, 0, 0] (by decide) (by decide) (by decide)
    simpa using this
  · exact version_gate_decode_only.2 (FrameHeaderV1.mk 0x07 .Event ⟨0⟩
      [0, 0, 0, 0, 0, 0, 0, 0] 0)

/-- Claim C9: header decode never returns `BadDeviceIdBytes` or
`BadCounterBytes` on any input; the two slice-conversion error branches
are unreachable. -/
theorem no_bad_slice_errors (input : List Nat) :
    FrameHeaderV1.decode input ≠ .error .BadDeviceIdBytes ∧
    FrameHeaderV1.decode input ≠ .error .BadCounterBytes :=
  decode_never_bad_slices input

/-- Witness for C9 at the empty input. -/
theorem no_bad_slice_errors_witness :
    FrameHeaderV1.decode [] ≠ .error .BadDeviceIdBytes ∧
    FrameHeaderV1.decode [] ≠ .error .BadCounterBytes :=
  no_bad_slice_errors []

/-- Claim C10: on any input of length at least 21, header decode returns
the same result as on just the first 21 bytes, so trailing bytes are
ignored rather than rejected. -/
theorem decode_ignores_trailing (input : List Nat) (h : 21 ≤ input.length) :
    FrameHeaderV1.decode input = FrameHeaderV1.decode (input.take 21) :=
  decode_prefix_21 input h

/-- Witness for C10 at a 22-byte all-zero input. -/
theorem decode_ignores_trailing_witness :
    FrameHeaderV1.decode (List.replicate 22 0) =
      FrameHeaderV1.decode ((List.replicate 22 0).take 21) :=
  decode_ignores_trailing _ (by decide)

end Pipproto
